import Mathlib

/-!
Shallow embedding of the panic-button dashboard page (the single client
component of this repository). The component keeps its state in React
hooks; here that state is an explicit record and each callback
(`arm`, `disarm`, `trigger`, `cancelCountdown`, `stop`), the countdown
controller effect, the geolocation fetch and the user-intent surface
(the two buttons and the keyboard handler) become pure functions on it.

Modelling conventions:
- `crypto.randomUUID()` ids are modelled by a counter `nextId`; ISO
  timestamps by a counter `now` advanced by one on each 1-second tick.
- The audio subsystem (`audioCtxRef`/oscillator/gain) is modelled by the
  flag `alarmOn` (audio context present) plus the ghost counter
  `alarmStartCount`, which counts the times `startAlarm` actually
  constructs an audio context (its early-return makes it idempotent).
- `obtainLocation` is asynchronous in the source: issuing the request is
  fire-and-forget (modelled by the counter `locReq`), and its
  success/denial callbacks are modelled by `obtainLocation` applied to a
  `GeoOutcome` of the environment. Decimal `toFixed(5)` formatting of
  coordinates is abstracted by `locationUpdatedMessage` over integers.
- The countdown controller effect reschedules a single 1-second timeout
  whenever `countdown` changes and clears the previous one, so at most
  one timer is ever pending; a `tick` event models that pending timeout
  firing, and it exists only while `countdown` holds a positive value.
  The effect's zero case (trigger the alarm) runs synchronously with the
  state change that set the countdown to zero, hence `fireIfZero` is
  applied inside `tick` itself.
- `fireCount` is a ghost counter of executions of the countdown-zero
  branch, i.e. of transitions into the triggered mode caused by a
  countdown running out.
-/

namespace Panic

inductive LogKind where
  | armed
  | disarmed
  | triggered
  | cancelled
  | location
  | note
deriving DecidableEq, Repr

structure LogEntry where
  id : Nat
  kind : LogKind
  message : String
  timestamp : Nat
deriving DecidableEq, Repr

inductive AlertMode where
  | Disarmed
  | Armed
  | CountingDown
  | Triggered
deriving DecidableEq, Repr

structure PageState where
  isArmed : Bool
  isTriggered : Bool
  countdown : Option Nat
  logs : List LogEntry
  coords : Option (Int × Int)
  alarmOn : Bool
  alarmStartCount : Nat
  locReq : Nat
  fireCount : Nat
  nextId : Nat
  now : Nat
deriving DecidableEq, Repr

/-- `addLog` prepends a fresh entry (fresh id, current timestamp) at the
head of the log, exactly as `setLogs((prev) => [newEntry, ...prev])`. -/
def addLog (k : LogKind) (msg : String) (s : PageState) : PageState :=
  { s with
    logs := ⟨s.nextId, k, msg, s.now⟩ :: s.logs
    nextId := s.nextId + 1 }

/-- `startAlarm` returns early when an audio context already exists;
otherwise it constructs the audio pipeline (counted by
`alarmStartCount`) and keeps it in the refs (`alarmOn`). -/
def startAlarm (s : PageState) : PageState :=
  if s.alarmOn then s
  else { s with alarmOn := true, alarmStartCount := s.alarmStartCount + 1 }

/-- `stopAlarm` stops the oscillator, closes the context and clears the
refs; failures are swallowed. -/
def stopAlarm (s : PageState) : PageState :=
  { s with alarmOn := false }

/-- Issuing a geolocation request is fire-and-forget from the state
machine's point of view; only the request count is recorded here.  The
asynchronous resolution is `obtainLocation` below. -/
def requestLocation (s : PageState) : PageState :=
  { s with locReq := s.locReq + 1 }

/-- Possible outcomes of a geolocation fetch: the API is absent from
`navigator`, the position callback fires, or the error callback fires. -/
inductive GeoOutcome where
  | unavailable
  | denied
  | success (lat lng : Int)
deriving DecidableEq, Repr

/-- Abstraction of the template literal with `toFixed(5)` coordinates. -/
def locationUpdatedMessage (lat lng : Int) : String :=
  "Location updated (" ++ toString lat ++ ", " ++ toString lng ++ ")"

/-- `obtainLocation`, lines 120-133 of the source: when `geolocation` is
not in `navigator` it returns at once; on success it stores the
coordinate and logs a `location` entry; on denial it logs a `location`
entry with the denial message and leaves the coordinate alone. -/
def obtainLocation (g : GeoOutcome) (s : PageState) : PageState :=
  match g with
  | .unavailable => s
  | .success lat lng =>
      addLog .location (locationUpdatedMessage lat lng)
        { s with coords := some (lat, lng) }
  | .denied => addLog .location "Location access denied" s

/-- `arm`: sets the armed flag, logs `armed`, requests a location. -/
def arm (s : PageState) : PageState :=
  requestLocation (addLog .armed "System armed" { s with isArmed := true })

/-- `disarm`: clears the armed flag, logs `disarmed`, clears the
countdown; if the triggered flag was set it also clears it, stops the
alarm and logs `cancelled`. -/
def disarm (s : PageState) : PageState :=
  let s3 := { addLog .disarmed "System disarmed" { s with isArmed := false } with
    countdown := none }
  if s.isTriggered then
    addLog .cancelled "Alarm cancelled" (stopAlarm { s3 with isTriggered := false })
  else s3

/-- The countdown controller effect's zero branch: triggered flag set,
countdown cleared, alarm started, location requested. -/
def fire (s : PageState) : PageState :=
  requestLocation (startAlarm
    { s with isTriggered := true, countdown := none, fireCount := s.fireCount + 1 })

/-- The countdown controller effect: fires when the countdown has just
become zero, otherwise leaves the state alone (non-zero countdowns only
schedule the next timeout). -/
def fireIfZero (s : PageState) : PageState :=
  match s.countdown with
  | some 0 => fire s
  | _ => s

/-- The pending 1-second timeout firing: it exists only while the
countdown holds a positive value (the effect clears it otherwise), and
it decrements the countdown, upon which the effect re-runs. -/
def tick (s : PageState) : PageState :=
  match s.countdown with
  | some (n + 1) => fireIfZero { s with countdown := some n, now := s.now + 1 }
  | _ => s

/-- `trigger`: arms first when not armed (with `arm`'s log entry and
location request), then sets the countdown to 3 and logs `triggered`. -/
def trigger (s : PageState) : PageState :=
  let s1 := if s.isArmed then s else arm s
  addLog .triggered "Panic sequence initiated (3s)" { s1 with countdown := some 3 }

/-- `cancelCountdown`: clears the countdown (the controller effect then
clears the pending timeout) and logs `cancelled`. -/
def cancelCountdown (s : PageState) : PageState :=
  addLog .cancelled "Countdown cancelled" { s with countdown := none }

/-- `stop`: clears the triggered flag, stops the alarm, logs `cancelled`. -/
def stop (s : PageState) : PageState :=
  addLog .cancelled "Alarm stopped" (stopAlarm { s with isTriggered := false })

/-- The mode the spec derives from the three state variables: the
triggered flag dominates (the status display shows ALARM whenever it is
set), then a live countdown, then the armed flag. -/
def mode (s : PageState) : AlertMode :=
  if s.isTriggered then .Triggered
  else if s.countdown.isSome then .CountingDown
  else if s.isArmed then .Armed
  else .Disarmed

/-- The five user intents plus the internal timer tick. -/
inductive Intent where
  | arm
  | disarm
  | trigger
  | cancelCountdown
  | stop
  | tick
deriving DecidableEq, Repr

def step (e : Intent) (s : PageState) : PageState :=
  match e with
  | .arm => arm s
  | .disarm => disarm s
  | .trigger => trigger s
  | .cancelCountdown => cancelCountdown s
  | .stop => stop s
  | .tick => tick s

def run (es : List Intent) (s : PageState) : PageState :=
  es.foldl (fun t e => step e t) s

/-- The component's initial state: disarmed, no countdown, empty log. -/
def initialState : PageState :=
  { isArmed := false, isTriggered := false, countdown := none, logs := []
    coords := none, alarmOn := false, alarmStartCount := 0, locReq := 0
    fireCount := 0, nextId := 0, now := 0 }

/-- The big round button: cancel while counting down, stop while
triggered, trigger otherwise. -/
def mainButton (s : PageState) : PageState :=
  if s.countdown.isSome then cancelCountdown s
  else if s.isTriggered then stop s
  else trigger s

/-- The Arm/Disarm button: disarm when armed, arm otherwise. -/
def armDisarmButton (s : PageState) : PageState :=
  if s.isArmed then disarm s else arm s

/-- The Escape key handler: cancels the countdown when one is live, and
stops the alarm when the triggered flag is set (both guards read the
same snapshot of the state). -/
def escKey (s : PageState) : PageState :=
  let s1 := if s.countdown.isSome then cancelCountdown s else s
  if s.isTriggered then stop s1 else s1

/-- The space key handler dispatches `trigger` unconditionally. -/
def spaceKey (s : PageState) : PageState :=
  trigger s

/-- User interactions available through the rendered controls together
with the timer tick: the two buttons, the Escape key, and the tick.  The
space key is deliberately excluded here because it forwards to `trigger`
without any mode guard. -/
inductive UiEvent where
  | mainB
  | armB
  | esc
  | tick
deriving DecidableEq, Repr

def uiStep (e : UiEvent) (s : PageState) : PageState :=
  match e with
  | .mainB => mainButton s
  | .armB => armDisarmButton s
  | .esc => escKey s
  | .tick => tick s

def uiRun (es : List UiEvent) (s : PageState) : PageState :=
  es.foldl (fun t e => uiStep e t) s

/-- Consistency of the three raw state variables: a set triggered flag
rules out a live countdown.  Under this condition the four-mode
abstraction of the spec is faithful. -/
def ConsistentFlags (s : PageState) : Prop :=
  s.isTriggered = true → s.countdown = none

/-! Helper lemmas about the log shapes and the derived mode. -/

theorem arm_logs (s : PageState) :
    (arm s).logs = ⟨s.nextId, .armed, "System armed", s.now⟩ :: s.logs := rfl

theorem cancelCountdown_logs (s : PageState) :
    (cancelCountdown s).logs =
      ⟨s.nextId, .cancelled, "Countdown cancelled", s.now⟩ :: s.logs := rfl

theorem stop_logs (s : PageState) :
    (stop s).logs = ⟨s.nextId, .cancelled, "Alarm stopped", s.now⟩ :: s.logs := rfl

theorem disarm_logs (s : PageState) :
    (disarm s).logs =
      (if s.isTriggered then
        [⟨s.nextId + 1, .cancelled, "Alarm cancelled", s.now⟩,
         ⟨s.nextId, .disarmed, "System disarmed", s.now⟩]
       else [⟨s.nextId, .disarmed, "System disarmed", s.now⟩]) ++ s.logs := by
  cases h : s.isTriggered <;> simp [disarm, addLog, stopAlarm, h]

theorem trigger_logs (s : PageState) :
    (trigger s).logs =
      (if s.isArmed then
        [⟨s.nextId, .triggered, "Panic sequence initiated (3s)", s.now⟩]
       else
        [⟨s.nextId + 1, .triggered, "Panic sequence initiated (3s)", s.now⟩,
         ⟨s.nextId, .armed, "System armed", s.now⟩]) ++ s.logs := by
  cases h : s.isArmed <;> simp [trigger, arm, addLog, requestLocation, h]

theorem fire_logs (s : PageState) : (fire s).logs = s.logs := by
  cases h : s.alarmOn <;> simp [fire, startAlarm, requestLocation, h]

theorem fireIfZero_logs (s : PageState) : (fireIfZero s).logs = s.logs := by
  unfold fireIfZero
  rcases h : s.countdown with _ | (_ | n) <;> simp [h, fire_logs]

theorem tick_logs (s : PageState) : (tick s).logs = s.logs := by
  unfold tick
  rcases h : s.countdown with _ | (_ | n) <;> simp [h, fireIfZero_logs]

theorem mode_eq_Disarmed_iff (s : PageState) :
    mode s = .Disarmed ↔
      s.isTriggered = false ∧ s.countdown = none ∧ s.isArmed = false := by
  cases ht : s.isTriggered <;> cases ha : s.isArmed <;>
    rcases hc : s.countdown with _ | n <;> simp [mode, ht, ha, hc]

theorem mode_eq_Armed_iff (s : PageState) :
    mode s = .Armed ↔
      s.isTriggered = false ∧ s.countdown = none ∧ s.isArmed = true := by
  cases ht : s.isTriggered <;> cases ha : s.isArmed <;>
    rcases hc : s.countdown with _ | n <;> simp [mode, ht, ha, hc]

theorem mode_eq_CountingDown_iff (s : PageState) :
    mode s = .CountingDown ↔
      s.isTriggered = false ∧ s.countdown.isSome = true := by
  cases ht : s.isTriggered <;> cases ha : s.isArmed <;>
    rcases hc : s.countdown with _ | n <;> simp [mode, ht, ha, hc]

theorem tick_of_countdown_none (s : PageState) (h : s.countdown = none) :
    tick s = s := by
  unfold tick
  simp [h]

theorem run_append (a b : List Intent) (s : PageState) :
    run (a ++ b) s = run b (run a s) := by
  simp [run, List.foldl_append]

theorem run_replicate_tick_of_none (m : Nat) (s : PageState)
    (h : s.countdown = none) : run (List.replicate m .tick) s = s := by
  induction m with
  | zero => rfl
  | succ k ih =>
      rw [List.replicate_succ]
      show run (List.replicate k .tick) (tick s) = s
      rw [tick_of_countdown_none s h]
      exact ih

/-! Claim theorems. -/

/-- Claim C7: `disarm` called in any state sets the derived mode to
`Disarmed`, clears the countdown (so the controller effect clears any
pending timer), always appends a `disarmed` log entry, and when the
triggered flag was previously set it additionally stops the alarm
output and appends a `cancelled` entry on top of the `disarmed` one. -/
theorem disarm_resets_everything (s : PageState) :
    (disarm s).isArmed = false ∧
    (disarm s).isTriggered = false ∧
    mode (disarm s) = .Disarmed ∧
    (disarm s).countdown = none ∧
    (disarm s).alarmOn = (if s.isTriggered then false else s.alarmOn) ∧
    (disarm s).logs =
      (if s.isTriggered then
        [⟨s.nextId + 1, .cancelled, "Alarm cancelled", s.now⟩,
         ⟨s.nextId, .disarmed, "System disarmed", s.now⟩]
       else [⟨s.nextId, .disarmed, "System disarmed", s.now⟩]) ++ s.logs := by
  cases h : s.isTriggered <;>
    simp [disarm, addLog, stopAlarm, mode, h]

/-- Claim C9: the event log is append-only with newest-first ordering:
every step of the machine (any of the five intents or a timer tick) and
every geolocation resolution leaves the previous log as a suffix of the
new one, so existing entries, their fields and their relative order are
never mutated or removed, and new entries only appear at the head. -/
theorem log_append_only :
    (∀ (e : Intent) (s : PageState), List.IsSuffix s.logs (step e s).logs) ∧
    (∀ (g : GeoOutcome) (s : PageState),
      List.IsSuffix s.logs (obtainLocation g s).logs) := by
  constructor
  · intro e s
    cases e
    · show List.IsSuffix s.logs (arm s).logs
      rw [arm_logs]; exact List.suffix_cons _ _
    · exact ⟨_, (disarm_logs s).symm⟩
    · exact ⟨_, (trigger_logs s).symm⟩
    · show List.IsSuffix s.logs (cancelCountdown s).logs
      rw [cancelCountdown_logs]; exact List.suffix_cons _ _
    · show List.IsSuffix s.logs (stop s).logs
      rw [stop_logs]; exact List.suffix_cons _ _
    · show List.IsSuffix s.logs (tick s).logs
      rw [tick_logs]
  · intro g s
    cases g
    · exact ⟨[], rfl⟩
    · exact ⟨[⟨s.nextId, .location, "Location access denied", s.now⟩], rfl⟩
    · exact ⟨[⟨s.nextId, .location, _, s.now⟩], rfl⟩

/-- Claim C10: when the geolocation API is absent from `navigator`, a
location fetch returns without appending any log entry and without
modifying the stored coordinate (the whole state is untouched), while
the denial callback appends a `location` entry carrying the denial
message and also leaves the coordinate unchanged. -/
theorem geolocation_unavailable_vs_denied (s : PageState) :
    obtainLocation .unavailable s = s ∧
    (obtainLocation .denied s).coords = s.coords ∧
    (obtainLocation .denied s).logs =
      ⟨s.nextId, .location, "Location access denied", s.now⟩ :: s.logs := by
  refine ⟨rfl, ?_, ?_⟩ <;> simp [obtainLocation, addLog]

/-- Claim C5: `trigger` invoked in the `Disarmed` mode appends exactly
two log entries, `armed` first and `triggered` on top of it (newest
first), and `trigger` invoked in the `Armed` mode appends exactly one
`triggered` entry. -/
theorem trigger_log_entries (s : PageState) :
    (mode s = .Disarmed →
      (trigger s).logs =
        ⟨s.nextId + 1, .triggered, "Panic sequence initiated (3s)", s.now⟩ ::
          ⟨s.nextId, .armed, "System armed", s.now⟩ :: s.logs) ∧
    (mode s = .Armed →
      (trigger s).logs =
        ⟨s.nextId, .triggered, "Panic sequence initiated (3s)", s.now⟩ :: s.logs) := by
  constructor
  · intro h
    obtain ⟨-, -, ha⟩ := (mode_eq_Disarmed_iff s).mp h
    rw [trigger_logs, ha]
    simp
  · intro h
    obtain ⟨-, -, ha⟩ := (mode_eq_Armed_iff s).mp h
    rw [trigger_logs, ha]
    simp

/-- Witness for C5 at concrete states: the initial state is `Disarmed`
and the armed initial state is `Armed`. -/
theorem trigger_log_entries_witness :
    mode initialState = .Disarmed ∧
    (trigger initialState).logs =
      [⟨1, .triggered, "Panic sequence initiated (3s)", 0⟩,
       ⟨0, .armed, "System armed", 0⟩] ∧
    mode (arm initialState) = .Armed ∧
    (trigger (arm initialState)).logs =
      ⟨1, .triggered, "Panic sequence initiated (3s)", 0⟩ ::
        (arm initialState).logs :=
  ⟨rfl, (trigger_log_entries initialState).1 rfl, rfl,
    (trigger_log_entries (arm initialState)).2 rfl⟩

/-- Claim C4 counterexample: in the initial state the mode is neither
`Triggered` nor `CountingDown`, yet the raw `stop` callback is not a
no-op (it appends a `cancelled` entry) and neither is the raw
`cancelCountdown` callback. -/
theorem invalid_intent_counterexample :
    mode initialState ≠ .Triggered ∧
    mode initialState ≠ .CountingDown ∧
    stop initialState ≠ initialState ∧
    (stop initialState).logs.length = initialState.logs.length + 1 ∧
    cancelCountdown initialState ≠ initialState ∧
    (cancelCountdown initialState).logs.length =
      initialState.logs.length + 1 := by
  decide

/-- Claim C4 amended: invalid intents are silenced at the dispatch
layer, not inside the callbacks: the Escape handler (the only keyboard
surface for `cancelCountdown` and `stop`) dispatches neither when the
mode permits neither, so issuing that intent in a state that is neither
`CountingDown` nor `Triggered` causes no state change and no log entry;
the raw `stop`/`cancelCountdown` callbacks themselves, if invoked in an
impermissible mode, do append a `cancelled` log entry. -/
theorem esc_invalid_intent_noop (s : PageState)
    (h1 : s.countdown = none) (h2 : s.isTriggered = false) :
    escKey s = s := by
  simp [escKey, h1, h2]

/-- Witness for the amended C4 at the initial state. -/
theorem esc_invalid_intent_noop_witness :
    initialState.countdown = none ∧ initialState.isTriggered = false ∧
    escKey initialState = initialState :=
  ⟨rfl, rfl, esc_invalid_intent_noop initialState rfl rfl⟩

theorem consistent_uiStep (e : UiEvent) (s : PageState)
    (h : ConsistentFlags s) : ConsistentFlags (uiStep e s) := by
  obtain ⟨a, t, c, lg, co, al, ac, lr, fc, ni, no⟩ := s
  unfold ConsistentFlags at *
  cases e <;> cases a <;> cases t <;> cases al <;>
    rcases c with _ | (_ | (_ | n)) <;>
    simp_all [uiStep, mainButton, armDisarmButton, escKey, trigger, arm,
      disarm, cancelCountdown, stop, tick, addLog, stopAlarm,
      requestLocation, startAlarm, fire, fireIfZero]

theorem consistent_uiRun (es : List UiEvent) (s : PageState)
    (h : ConsistentFlags s) : ConsistentFlags (uiRun es s) := by
  induction es generalizing s with
  | nil => exact h
  | cons e es ih => exact ih (uiStep e s) (consistent_uiStep e s h)

/-- Claim C1 counterexample: the intent sequence `trigger`, three ticks
(after which the alarm has fired), then `trigger` again — issuable
because the space key dispatches `trigger` unconditionally — reaches a
state whose countdown is `some 3` while the derived mode is
`Triggered`, so the countdown is non-null without the mode being
`CountingDown`. -/
theorem mode_countdown_invariant_counterexample :
    mode (run [.trigger, .tick, .tick, .tick, .trigger] initialState) =
      .Triggered ∧
    (run [.trigger, .tick, .tick, .tick, .trigger] initialState).countdown =
      some 3 ∧
    ¬(((run [.trigger, .tick, .tick, .tick, .trigger]
          initialState).countdown.isSome = true) ↔
        mode (run [.trigger, .tick, .tick, .tick, .trigger] initialState) =
          .CountingDown) := by
  decide

/-- Claim C1 amended: for every sequence of user intents issued through
the rendered controls (the main button, the Arm/Disarm button, the
Escape key — which never dispatch `trigger` while counting down or
triggered) and timer ticks, starting from the initial state, the
derived mode is always exactly one of the four enumerated values and
the countdown is non-null iff the mode is `CountingDown`.  The
unrestricted claim fails because the space key dispatches `trigger`
unconditionally, and a `trigger` issued while `Triggered` yields a
non-null countdown with mode `Triggered`. -/
theorem ui_mode_countdown_invariant (es : List UiEvent) :
    (mode (uiRun es initialState) = .Disarmed ∨
     mode (uiRun es initialState) = .Armed ∨
     mode (uiRun es initialState) = .CountingDown ∨
     mode (uiRun es initialState) = .Triggered) ∧
    ((uiRun es initialState).countdown.isSome = true ↔
      mode (uiRun es initialState) = .CountingDown) := by
  have hc : ConsistentFlags (uiRun es initialState) :=
    consistent_uiRun es initialState (by intro h; exact absurd h (by decide))
  constructor
  · rcases mode (uiRun es initialState) with _ | _ | _ | _ <;> simp
  · rw [mode_eq_CountingDown_iff]
    constructor
    · intro hs
      refine ⟨?_, hs⟩
      cases ht : (uiRun es initialState).isTriggered
      · rfl
      · rw [hc ht] at hs
        exact absurd hs (by simp)
    · exact fun hm => hm.2

/-- Claim C2 counterexample: in the reachable state after `trigger` and
one tick the mode is `CountingDown` with countdown 2, yet calling
`trigger` again is not a no-op: it resets the countdown to 3 and
appends a further `triggered` log entry. -/
theorem trigger_reentrant_counterexample :
    mode (run [.trigger, .tick] initialState) = .CountingDown ∧
    (run [.trigger, .tick] initialState).countdown = some 2 ∧
    trigger (run [.trigger, .tick] initialState) ≠
      run [.trigger, .tick] initialState ∧
    (trigger (run [.trigger, .tick] initialState)).logs.length =
      (run [.trigger, .tick] initialState).logs.length + 1 ∧
    (trigger (run [.trigger, .tick] initialState)).countdown = some 3 := by
  decide

/-- Claim C2 amended: `trigger` called while the system is armed (which
covers every reachable `CountingDown` or `Triggered` state) is not a
no-op: it restarts the countdown at 3 and appends one `triggered` log
entry, leaving the armed/triggered flags, the alarm and the coordinate
unchanged. -/
theorem trigger_reentrant_restarts (s : PageState) (h : s.isArmed = true) :
    trigger s =
      { s with
        countdown := some 3
        logs := ⟨s.nextId, .triggered, "Panic sequence initiated (3s)",
          s.now⟩ :: s.logs
        nextId := s.nextId + 1 } := by
  simp [trigger, addLog, h]

/-- Witness for the amended C2 at the armed initial state. -/
theorem trigger_reentrant_restarts_witness :
    (arm initialState).isArmed = true ∧
    trigger (arm initialState) =
      { arm initialState with
        countdown := some 3
        logs := ⟨(arm initialState).nextId, .triggered,
          "Panic sequence initiated (3s)", (arm initialState).now⟩ ::
            (arm initialState).logs
        nextId := (arm initialState).nextId + 1 } :=
  ⟨rfl, trigger_reentrant_restarts (arm initialState) rfl⟩

/-- Claim C3: for the intent sequence `trigger`, `cancelCountdown`,
`trigger`, the countdown started by the first `trigger` is cancelled
and never fires (the controller effect clears the pending timeout when
the countdown is set to null, so the model has at most one pending
tick), and after any number of further ticks from 3 on exactly one
countdown-completion transition into `Triggered` has occurred, not
two. -/
theorem cancel_prevents_double_fire (n : Nat) (h : 3 ≤ n) :
    (run ([.trigger, .cancelCountdown, .trigger] ++
      List.replicate n .tick) initialState).fireCount = 1 := by
  obtain ⟨m, rfl⟩ := Nat.exists_eq_add_of_le h
  rw [List.replicate_add, ← List.append_assoc, run_append]
  rw [run_replicate_tick_of_none m _ (by decide)]
  decide

/-- Witness for C3 at five ticks. -/
theorem cancel_prevents_double_fire_witness :
    3 ≤ 5 ∧
    (run ([.trigger, .cancelCountdown, .trigger] ++
      List.replicate 5 .tick) initialState).fireCount = 1 :=
  ⟨by decide, cancel_prevents_double_fire 5 (by decide)⟩

/-- Claim C6: while a countdown is live, each 1-second tick decrements
it by exactly 1 (and only advances the clock); the tick that brings it
to 0 makes the controller effect fire in the same step: the triggered
flag is set (so the derived mode is `Triggered`), the countdown becomes
null, the alarm output is started exactly once (when it was not already
running), and one location fetch is requested. -/
theorem tick_decrements_then_fires :
    (∀ (s : PageState) (n : Nat), s.countdown = some (n + 2) →
      tick s = { s with countdown := some (n + 1), now := s.now + 1 }) ∧
    (∀ s : PageState, s.countdown = some 1 → s.alarmOn = false →
      tick s =
        { s with
          countdown := none
          isTriggered := true
          alarmOn := true
          alarmStartCount := s.alarmStartCount + 1
          locReq := s.locReq + 1
          fireCount := s.fireCount + 1
          now := s.now + 1 } ∧
      mode (tick s) = .Triggered) := by
  constructor
  · intro s n h
    simp [tick, fireIfZero, h]
  · intro s h ha
    have ht : tick s =
        { s with
          countdown := none
          isTriggered := true
          alarmOn := true
          alarmStartCount := s.alarmStartCount + 1
          locReq := s.locReq + 1
          fireCount := s.fireCount + 1
          now := s.now + 1 } := by
      simp [tick, fireIfZero, fire, startAlarm, requestLocation, h, ha]
    exact ⟨ht, by rw [ht]; simp [mode]⟩

/-- Witness for C6: a tick at countdown 3 decrements to 2, and the tick
at countdown 1 (reached after two more ticks) fires the alarm. -/
theorem tick_decrements_then_fires_witness :
    (run [.trigger] initialState).countdown = some (1 + 2) ∧
    tick (run [.trigger] initialState) =
      { run [.trigger] initialState with
        countdown := some (1 + 1)
        now := (run [.trigger] initialState).now + 1 } ∧
    (run [.trigger, .tick, .tick] initialState).countdown = some 1 ∧
    (run [.trigger, .tick, .tick] initialState).alarmOn = false ∧
    mode (tick (run [.trigger, .tick, .tick] initialState)) = .Triggered :=
  ⟨by decide,
    tick_decrements_then_fires.1 (run [.trigger] initialState) 1 (by decide),
    by decide, by decide,
    (tick_decrements_then_fires.2 (run [.trigger, .tick, .tick] initialState)
      (by decide) (by decide)).2⟩

/-- Claim C8 counterexample: calling `arm` twice from the initial state
leaves two `armed` log entries, and the state after the second call
differs from the state after the first. -/
theorem arm_twice_counterexample :
    (arm (arm initialState)).logs.length = 2 ∧
    ((arm (arm initialState)).logs.filter
      (fun e => e.kind == LogKind.armed)).length = 2 ∧
    arm (arm initialState) ≠ arm initialState := by
  decide

/-- Claim C8 amended: a second `arm` immediately after `arm` is
observable: it appends a second `armed` log entry and issues a second
location request; the armed flag itself is unchanged (already set) and
so are the countdown, the triggered flag and the alarm. -/
theorem arm_twice_appends_second_entry (s : PageState) :
    arm (arm s) =
      { arm s with
        logs := ⟨s.nextId + 1, .armed, "System armed", s.now⟩ ::
          (arm s).logs
        nextId := s.nextId + 2
        locReq := s.locReq + 2 } := by
  simp [arm, addLog, requestLocation]

end Panic
